import Mathlib

/-!
Verification development for the nano-convert backend's asynchronous job
pipeline.  The definitions below are a shallow embedding of the Python
sources:

* `app/services/processor.py` — worker executor (`process_job`,
  `_save_metadata_sync`, `_download_inputs`, `_upload_output_sync`,
  `_process_pass_through`);
* `app/services/storage.py` — object stager (`upload_bytes` key generation);
* `app/services/queue.py` — `store_job_metadata`;
* `app/services/clamav_service.py` — `scan_buffer`, `_sync_scan`;
* `app/utils/validation.py` — `validate_tool_and_files`;
* `app/routes/tools.py` — `run_tool` admission route;
* `app/constants.py` — `TOOLS_META`.

Modelling conventions: Python `bytes` is `List Nat`; the Redis job registry
is a function from redis keys to optional job records; external
collaborators (the S3 byte store, libmagic, ClamAV, the PDF and image
codecs, the wall clock) are supplied as fields of environment structures.
Clock readings are naturals in milliseconds.  Record TTLs are not modelled;
expiry shows up as absence of a record.
-/

/-- Python `bytes`: a list of byte values. -/
abbrev Bytes := List Nat

/-- The four status strings the code writes into job records
(`"queued"`, `"running"`, `"completed"`, `"failed"`). -/
inductive JobStatus
  | queued
  | running
  | completed
  | failed
deriving DecidableEq

/-- A job record as stored in Redis under `"job:" + id`.  Every field is
optional: `_save_metadata_sync` merges partial dicts, so a record holds
exactly the keys that some write has supplied (`none` = key absent). -/
structure JobMeta where
  id : Option String := none
  slug : Option String := none
  status : Option JobStatus := none
  createdAt : Option Nat := none
  updatedAt : Option Nat := none
  expiresAt : Option Nat := none
  inputFiles : Option (List String) := none
  outputFile : Option String := none
  error : Option String := none
deriving DecidableEq

/-- One field of Python's `dict.update`: the patch's value wins when the
patch carries the key. -/
def mergeField {α : Type} (old newVal : Option α) : Option α :=
  match newVal with
  | some v => some v
  | none => old

/-- Python `meta.update(partial)` (processor.py line 38), field by field. -/
def JobMeta.merge (m p : JobMeta) : JobMeta where
  id := mergeField m.id p.id
  slug := mergeField m.slug p.slug
  status := mergeField m.status p.status
  createdAt := mergeField m.createdAt p.createdAt
  updatedAt := mergeField m.updatedAt p.updatedAt
  expiresAt := mergeField m.expiresAt p.expiresAt
  inputFiles := mergeField m.inputFiles p.inputFiles
  outputFile := mergeField m.outputFile p.outputFile
  error := mergeField m.error p.error

/-- The Redis key-value store holding job records. -/
abbrev Registry := String → Option JobMeta

/-- `_save_metadata_sync(job_id, partial)` (processor.py lines 26-41):
read `"job:" + job_id`, fall back to the empty dict when the key is absent
(or the stored JSON unparsable), merge the patch, stamp `updatedAt`, and
write the merged record back.  The source sets a TTL on the write
(`ex=settings.job_ttl_seconds`); TTLs are outside this model. -/
def saveMetadataSync (reg : Registry) (jobId : String) (patch : JobMeta)
    (nowMs : Nat) : Registry :=
  let key := "job:" ++ jobId
  let meta := (reg key).getD {}
  let merged := { meta.merge patch with updatedAt := some nowMs }
  fun k => if k = key then some merged else reg k

/-- `queue.store_job_metadata` (queue.py lines 76-81): plain overwrite of
`"job:" + job_id` with the given record. -/
def storeJobMetadata (reg : Registry) (jobId : String) (meta : JobMeta) :
    Registry :=
  fun k => if k = "job:" ++ jobId then some meta else reg k

/-- The job record built by the admission route (tools.py lines 54-64). -/
def mkJobMeta (jobId slug : String) (createdAt : Nat)
    (inputKeys : List String) (ttlSeconds : Nat) : JobMeta where
  id := some jobId
  slug := some slug
  status := some .queued
  createdAt := some createdAt
  updatedAt := some createdAt
  expiresAt := some (createdAt + ttlSeconds * 1000)
  inputFiles := some inputKeys
  outputFile := none
  error := none

/-- Decimal digit character of a value below ten (Python's `str` on ints,
one digit). -/
def digitChar (n : Nat) : Char :=
  match n with
  | 0 => '0'
  | 1 => '1'
  | 2 => '2'
  | 3 => '3'
  | 4 => '4'
  | 5 => '5'
  | 6 => '6'
  | 7 => '7'
  | 8 => '8'
  | _ => '9'

/-- Decimal digit list of a natural (Python's `str` on a non-negative
int). -/
def natDigits (n : Nat) : List Char :=
  if _h : n < 10 then [digitChar n]
  else natDigits (n / 10) ++ [digitChar (n % 10)]
termination_by n
decreasing_by exact Nat.div_lt_self (by omega) (by omega)

/-- Python `str(n)` for a non-negative int. -/
def natToStr (n : Nat) : String :=
  String.mk (natDigits n)

/-- Object key generation shared by `storage.upload_bytes` (storage.py
line 53) and `processor._upload_output_sync` (processor.py line 86):
`f"{prefix}/{int(time.time())}-{int(time.time() * 1000)}"`, with the clock
reading supplied in milliseconds.  No counter or random suffix is
involved. -/
def mkObjectKey (pfx : String) (nowMs : Nat) : String :=
  pfx ++ "/" ++ natToStr (nowMs / 1000) ++ "-" ++ natToStr nowMs

/-- `storage.upload_bytes` (storage.py lines 46-65): stages a buffer and
returns the generated key.  The key does not depend on the buffer or the
content type. -/
def upload_bytes (_buffer : Bytes) (_contentType : String) (pfx : String)
    (nowMs : Nat) : String :=
  mkObjectKey pfx nowMs

/-- Pages of a parsed PDF are opaque identities. -/
abbrev PdfPage := Nat

/-- An RGBA raster image (a Pillow image after `.convert("RGBA")`). -/
structure Img where
  w : Nat
  h : Nat
  px : Nat → Nat → Nat × Nat × Nat × Nat

/-- An RGB raster image (after `.convert("RGB")`). -/
structure ImgRGB where
  w : Nat
  h : Nat
  px : Nat → Nat → Nat × Nat × Nat

/-- The default image used with `List.getD` in statements. -/
def defaultImg : Img where
  w := 0
  h := 0
  px := fun _ _ => (0, 0, 0, 0)

/-- External collaborators of the worker's conversion step: the S3 byte
store, the PDF codec (PyPDF2), the image codec (Pillow `open` composed
with `.convert("RGBA")`, and the JPEG encoder), and the wall clock used
for the output key. -/
structure ConvEnv where
  store : String → Option Bytes
  parsePdf : Bytes → Option (List PdfPage)
  writePdf : List PdfPage → Bytes
  decodeImage : Bytes → Option Img
  encodeJpeg : ImgRGB → Bytes
  nowMs : Nat

/-- `_download_inputs` (processor.py lines 43-66): fetch every key in
order; a missing object makes `get_object` raise. -/
def downloadInputs (env : ConvEnv) (keys : List String) :
    Except String (List Bytes) :=
  match keys with
  | [] => .ok []
  | k :: rest =>
    match env.store k with
    | none => .error ("NoSuchKey: " ++ k)
    | some b =>
      match downloadInputs env rest with
      | .error e => .error e
      | .ok bs => .ok (b :: bs)

/-- The bytes of `b"%PDF-"`. -/
def pdfMagic : List Nat := [37, 80, 68, 70, 45]

/-- processor.py lines 104-105 and 115: `buffers[0][:8].startswith(b"%PDF-")`,
which holds exactly when the buffer starts with the five magic bytes. -/
def isPdfHead (b : Bytes) : Bool :=
  pdfMagic.isPrefixOf b

/-- The `PdfReader` loop of the merge branch (processor.py lines 117-121):
parse every buffer, failing like `PdfReader` on an unparsable one; the
per-buffer page lists are kept in buffer order. -/
def parsePdfAll (env : ConvEnv) (bs : List Bytes) :
    Except String (List (List PdfPage)) :=
  match bs with
  | [] => .ok []
  | b :: rest =>
    match env.parsePdf b with
    | none => .error "PdfReadError"
    | some ps =>
      match parsePdfAll env rest with
      | .error e => .error e
      | .ok rest2 => .ok (ps :: rest2)

/-- The `Image.open(...).convert("RGBA")` comprehension (processor.py
line 129): decode every buffer, failing like Pillow on an undecodable
one. -/
def decodeAll (env : ConvEnv) (bs : List Bytes) :
    Except String (List Img) :=
  match bs with
  | [] => .ok []
  | b :: rest =>
    match env.decodeImage b with
    | none => .error "UnidentifiedImageError"
    | some im =>
      match decodeAll env rest with
      | .error e => .error e
      | .ok rest2 => .ok (im :: rest2)

/-- The canvas colour of processor.py line 134: `(255, 255, 255, 0)`. -/
def canvasRGBA : Nat × Nat × Nat × Nat := (255, 255, 255, 0)

/-- Pixel lookup in the vertically pasted stack (processor.py lines
135-137): the image whose band contains row `y` supplies the pixel;
columns beyond that image's width, and rows beyond the stack, keep the
canvas colour.  `paste` without a mask overwrites the whole box. -/
def stackPx (imgs : List Img) (x y : Nat) : Nat × Nat × Nat × Nat :=
  match imgs with
  | [] => canvasRGBA
  | im :: rest =>
    if y < im.h then (if x < im.w then im.px x y else canvasRGBA)
    else stackPx rest x (y - im.h)

/-- Pillow `.convert("RGB")` on an RGBA pixel: the alpha channel is
dropped. -/
def dropAlpha (c : Nat × Nat × Nat × Nat) : Nat × Nat × Nat :=
  (c.1, c.2.1, c.2.2.1)

/-- `sum(heights)` (processor.py line 133). -/
def sumHeights (imgs : List Img) : Nat :=
  (imgs.map Img.h).sum

/-- `max(widths)` (processor.py line 132); on a non-empty list the fold
with base 0 agrees with Python's `max`. -/
def maxWidth (imgs : List Img) : Nat :=
  (imgs.map Img.w).foldr max 0

/-- Sum of the heights of the first `i` images: the vertical offset at
which image `i` is pasted (processor.py lines 135-138). -/
def heightsBefore (imgs : List Img) (i : Nat) : Nat :=
  ((imgs.take i).map Img.h).sum

/-- The image built by the multi-image branch (processor.py lines
128-141): an `RGBA` canvas of width `max(widths)` and height
`sum(heights)`, each input pasted at its cumulative offset, then
`.convert("RGB")`. -/
def mergeVertical (imgs : List Img) : ImgRGB where
  w := maxWidth imgs
  h := sumHeights imgs
  px := fun x y => dropAlpha (stackPx imgs x y)

/-- `_process_pass_through` (processor.py lines 91-144).  Returns the
generated output key together with the uploaded bytes and content type
(the source returns only the key; the bytes and content type are the
arguments it passes to `_upload_output_sync`). -/
def processPassThrough (env : ConvEnv) (inputKeys : List String) :
    Except String (String × Bytes × String) :=
  match downloadInputs env inputKeys with
  | .error e => .error e
  | .ok buffers =>
    match buffers with
    | [] => .error "IndexError: list index out of range"
    | [b] =>
      let ct := if isPdfHead b then "application/pdf"
                else "application/octet-stream"
      .ok (mkObjectKey "output" env.nowMs, b, ct)
    | b0 :: b1 :: rest =>
      if isPdfHead b0 then
        match parsePdfAll env (b0 :: b1 :: rest) with
        | .error e => .error e
        | .ok pagess =>
          .ok (mkObjectKey "output" env.nowMs, env.writePdf pagess.flatten,
               "application/pdf")
      else
        match decodeAll env (b0 :: b1 :: rest) with
        | .error e => .error e
        | .ok imgs =>
          .ok (mkObjectKey "output" env.nowMs,
               env.encodeJpeg (mergeVertical imgs), "image/jpeg")

/-- The RQ payload a work item carries (tools.py line 70): `jobId`,
`inputKeys` (defaulting to `[]` when absent), and the tool slug.  A
missing `jobId` key is `none`. -/
structure Payload where
  jobId : Option String := none
  inputKeys : List String := []
  tool : Option String := none
deriving DecidableEq

/-- How one `process_job` call ends: an early silent return, a normal
return after the completed-write, or a re-raised exception after the
failed-write (processor.py line 176). -/
inductive Outcome
  | silent
  | completedOut (key : String)
  | raised (e : String)
deriving DecidableEq

/-- Environment of one `process_job` run: the conversion collaborators
plus the clock readings at the two metadata writes. -/
structure WorkerEnv where
  conv : ConvEnv
  nowRunning : Nat
  nowDone : Nat

/-- Python truthiness test `not job_id` on an optional string: true for a
missing or empty id. -/
def falsyStr (o : Option String) : Bool :=
  match o with
  | none => true
  | some s => s == ""

/-- The first registry write of a delivered work item (processor.py
line 163): `_save_metadata_sync(job_id, {"status": "running"})`. -/
def processJobStep1 (reg : Registry) (jobId : String) (nowMs : Nat) :
    Registry :=
  saveMetadataSync reg jobId { status := some .running } nowMs

/-- `process_job` (processor.py lines 147-176): bail out silently on a
falsy job id or empty input-key list; otherwise write `running`, run the
pass-through conversion, and write `completed` + `outputFile` on success
or `failed` + `error` (then re-raise) on any exception. -/
def processJob (reg : Registry) (env : WorkerEnv) (data : Payload) :
    Registry × Outcome :=
  if falsyStr data.jobId || data.inputKeys.isEmpty then (reg, .silent)
  else
    let jobId := data.jobId.getD ""
    let reg1 := processJobStep1 reg jobId env.nowRunning
    match processPassThrough env.conv data.inputKeys with
    | .ok (outKey, _, _) =>
      (saveMetadataSync reg1 jobId
        { status := some .completed, outputFile := some outKey } env.nowDone,
       .completedOut outKey)
    | .error e =>
      (saveMetadataSync reg1 jobId
        { status := some .failed, error := some e } env.nowDone,
       .raised e)

/-- What the ClamAV backend interaction can yield inside `_sync_scan`
(clamav_service.py lines 51-76): the `instream` call raises, returns a
falsy result, returns a dict without a usable `stream` value, or returns
`(status, virusname)`. -/
inductive ScanRes
  | raisedExc (e : String)
  | noRes
  | noStreamKey
  | streamVal (st : String) (virus : Option String)
deriving DecidableEq

/-- Python `v or default` on an optional string: the default is used for a
missing or empty value. -/
def pyOrStr (v : Option String) (d : String) : String :=
  match v with
  | some s => if s == "" then d else s
  | none => d

/-- `_sync_scan` (clamav_service.py lines 51-76): re-raise an `instream`
exception; a falsy or stream-less result is treated as clean; status
`"OK"` is clean; anything else is infected with `virusname or
"infected"`. -/
def syncScan (res : ScanRes) : Except String (Bool × String) :=
  match res with
  | .raisedExc e => .error e
  | .noRes => .ok (true, "")
  | .noStreamKey => .ok (true, "")
  | .streamVal st virus =>
    if st == "OK" then .ok (true, "") else .ok (false, pyOrStr virus "infected")

/-- `scan_buffer` (clamav_service.py lines 13-48): when scanning is
administratively disabled the oracle is never consulted and the buffer is
reported clean; otherwise `_sync_scan` runs and any exception from it is
converted to a rejection `(False, "ClamAV error: ...")`. -/
def scanBuffer (enabled : Bool) (res : ScanRes) : Bool × String :=
  if !enabled then (true, "")
  else
    match syncScan res with
    | .ok r => r
    | .error e => (false, "ClamAV error: " ++ e)

/-- One entry of `TOOLS_META` (constants.py).  The `description` and
`options` fields are inert metadata never read by the admission logic and
are omitted. -/
structure ToolMeta where
  slug : String
  name : String
  category : String
  heavy : Bool
  maxInputFiles : Nat
  maxSizeBytes : Option Nat := none
  allowedMimeTypes : List String
deriving DecidableEq

/-- `TOOLS_META` (constants.py lines 27-211). -/
def TOOLS_META : List (String × ToolMeta) :=
  [ ("merge-pdf",
     { slug := "merge-pdf", name := "Merge PDF", category := "pdf",
       heavy := true, maxInputFiles := 20,
       maxSizeBytes := some (200 * 1024 * 1024),
       allowedMimeTypes := ["application/pdf"] }),
    ("split-pdf",
     { slug := "split-pdf", name := "Split PDF", category := "pdf",
       heavy := true, maxInputFiles := 1,
       allowedMimeTypes := ["application/pdf"] }),
    ("compress-pdf",
     { slug := "compress-pdf", name := "Compress PDF", category := "pdf",
       heavy := true, maxInputFiles := 1,
       allowedMimeTypes := ["application/pdf"] }),
    ("pdf-resize-size",
     { slug := "pdf-resize-size", name := "PDF Resize (KB/MB)",
       category := "pdf", heavy := true, maxInputFiles := 1,
       allowedMimeTypes := ["application/pdf"] }),
    ("pdf-to-image",
     { slug := "pdf-to-image", name := "PDF to Image", category := "pdf",
       heavy := true, maxInputFiles := 1,
       allowedMimeTypes := ["application/pdf"] }),
    ("image-to-pdf",
     { slug := "image-to-pdf", name := "Image to PDF", category := "pdf",
       heavy := false, maxInputFiles := 20,
       allowedMimeTypes := ["image/jpeg", "image/png", "image/webp"] }),
    ("rotate-pdf",
     { slug := "rotate-pdf", name := "Rotate PDF", category := "pdf",
       heavy := false, maxInputFiles := 1,
       allowedMimeTypes := ["application/pdf"] }),
    ("delete-pages",
     { slug := "delete-pages", name := "Delete Pages", category := "pdf",
       heavy := false, maxInputFiles := 1,
       allowedMimeTypes := ["application/pdf"] }),
    ("extract-pages",
     { slug := "extract-pages", name := "Extract Pages", category := "pdf",
       heavy := false, maxInputFiles := 1,
       allowedMimeTypes := ["application/pdf"] }),
    ("add-watermark",
     { slug := "add-watermark", name := "Add Watermark", category := "pdf",
       heavy := false, maxInputFiles := 1,
       allowedMimeTypes := ["application/pdf", "image/png", "image/jpeg"] }),
    ("image-compressor",
     { slug := "image-compressor", name := "Image Compressor",
       category := "image", heavy := true, maxInputFiles := 1,
       allowedMimeTypes := ["image/jpeg", "image/png", "image/webp"] }),
    ("image-resize-kb",
     { slug := "image-resize-kb", name := "Image Resizer (KB / MB)",
       category := "image", heavy := true, maxInputFiles := 1,
       allowedMimeTypes := ["image/jpeg", "image/png", "image/webp"] }),
    ("image-resize-dim",
     { slug := "image-resize-dim", name := "Image Resizer (Dimensions)",
       category := "image", heavy := false, maxInputFiles := 1,
       allowedMimeTypes := ["image/jpeg", "image/png", "image/webp"] }),
    ("crop-image",
     { slug := "crop-image", name := "Crop Image", category := "image",
       heavy := false, maxInputFiles := 1,
       allowedMimeTypes := ["image/jpeg", "image/png", "image/webp"] }),
    ("convert-image",
     { slug := "convert-image", name := "Convert Image (JPG / PNG / WEBP)",
       category := "image", heavy := false, maxInputFiles := 1,
       allowedMimeTypes := ["image/jpeg", "image/png", "image/webp"] }),
    ("rotate-image",
     { slug := "rotate-image", name := "Rotate Image", category := "image",
       heavy := false, maxInputFiles := 1,
       allowedMimeTypes := ["image/jpeg", "image/png", "image/webp"] }),
    ("flip-image",
     { slug := "flip-image", name := "Flip Image", category := "image",
       heavy := false, maxInputFiles := 1,
       allowedMimeTypes := ["image/jpeg", "image/png", "image/webp"] }),
    ("image-watermark",
     { slug := "image-watermark", name := "Image Watermark",
       category := "image", heavy := false, maxInputFiles := 1,
       allowedMimeTypes := ["image/jpeg", "image/png", "image/webp"] }),
    ("merge-images",
     { slug := "merge-images", name := "Merge Images", category := "image",
       heavy := true, maxInputFiles := 20,
       allowedMimeTypes := ["image/jpeg", "image/png", "image/webp"] }),
    ("split-image-grid",
     { slug := "split-image-grid", name := "Split Image (Grid)",
       category := "image", heavy := true, maxInputFiles := 1,
       allowedMimeTypes := ["image/jpeg", "image/png", "image/webp"] }) ]

/-- Python `slug in TOOLS_META` / `TOOLS_META[slug]`. -/
def toolsLookup (slug : String) : Option ToolMeta :=
  TOOLS_META.lookup slug

/-- The admission rejections `validate_tool_and_files` and `run_tool` can
raise (validation.py lines 45-74, tools.py line 42), tagged with the data
the `HTTPException` detail string carries. -/
inductive Rejection
  | toolNotFound
  | noFiles
  | tooManyFiles (maxAllowed : Nat)
  | emptyFile (filename : String)
  | fileTooLarge (filename : String)
  | invalidMime (filename : String) (mime : String)
  | malwareDetected (filename : String) (reason : String)
deriving DecidableEq

/-- The HTTP status code of each rejection. -/
def Rejection.statusCode : Rejection → Nat
  | .toolNotFound => 404
  | .noFiles => 400
  | .tooManyFiles _ => 400
  | .emptyFile _ => 400
  | .fileTooLarge _ => 413
  | .invalidMime _ _ => 415
  | .malwareDetected _ _ => 400

/-- One uploaded multipart file, already read into memory. -/
structure FileUpload where
  filename : String
  content : Bytes
deriving DecidableEq

/-- External collaborators of admission: libmagic (`detect_mime_type`
keyed by buffer and filename), the ClamAV oracle (keyed by buffer), the
`CLAMAV_ENABLED` switch, and the global `MAX_UPLOAD_BYTES`. -/
structure AdmissionEnv where
  detectMime : Bytes → String → String
  scanOracle : Bytes → ScanRes
  clamavEnabled : Bool
  maxUploadBytes : Nat

/-- Python `v or default` on an optional int (validation.py line 63):
`None` and `0` both fall back to the default. -/
def pyOrNat (v : Option Nat) (d : Nat) : Nat :=
  match v with
  | some n => if n == 0 then d else n
  | none => d

/-- The body of the per-file loop of `validate_tool_and_files`
(validation.py lines 57-76): empty check, size check against the per-tool
or global limit, content-type detection against the whitelist, malware
scan; on success the `(filename, bytes, detected_mime)` tuple. -/
def fileCheck (env : AdmissionEnv) (tool : ToolMeta) (f : FileUpload) :
    Except Rejection (String × Bytes × String) :=
  if f.content.isEmpty then .error (.emptyFile f.filename)
  else
    let maxSize := pyOrNat tool.maxSizeBytes env.maxUploadBytes
    if f.content.length > maxSize then .error (.fileTooLarge f.filename)
    else
      let mime := env.detectMime f.content f.filename
      if !tool.allowedMimeTypes.contains mime then
        .error (.invalidMime f.filename mime)
      else
        let scanned := scanBuffer env.clamavEnabled (env.scanOracle f.content)
        if !scanned.1 then .error (.malwareDetected f.filename scanned.2)
        else .ok (f.filename, f.content, mime)

/-- The per-file loop of `validate_tool_and_files` (validation.py lines
56-78): files are checked in input order, the first failure aborts the
whole request, and the validated tuples keep the input order. -/
def validateFiles (env : AdmissionEnv) (tool : ToolMeta) :
    List FileUpload → Except Rejection (List (String × Bytes × String))
  | [] => .ok []
  | f :: rest =>
    match fileCheck env tool f with
    | .error e => .error e
    | .ok v =>
      match validateFiles env tool rest with
      | .error e => .error e
      | .ok vs => .ok (v :: vs)

/-- `validate_tool_and_files` (validation.py lines 40-78): tool lookup,
then the count checks, then the per-file loop. -/
def validateToolAndFiles (env : AdmissionEnv) (slug : String)
    (files : List FileUpload) :
    Except Rejection (List (String × Bytes × String)) :=
  match toolsLookup slug with
  | none => .error .toolNotFound
  | some tool =>
    if files.isEmpty then .error .noFiles
    else if files.length > tool.maxInputFiles then
      .error (.tooManyFiles tool.maxInputFiles)
    else validateFiles env tool files

/-- The body of the `try` block of the rate limiter (tools.py lines
30-36): increment the per-minute counter (raising when Redis is
unreachable); raise an HTTP 429 `HTTPException` when the post-increment
value exceeds the configured limit. -/
def rateLimitTry (reachable : Bool) (counter limit : Nat) :
    Except String Nat :=
  if !reachable then .error "ConnectionError"
  else
    let incr := counter + 1
    if incr > limit then .error "HTTPException 429: Rate limit exceeded"
    else .ok incr

/-- Environment of one `run_tool` request: admission collaborators, the
Redis counter state for this client and minute bucket, the configured
limit, the clock at each staging upload, the request clock, the generated
uuid, and the job TTL. -/
structure RouteEnv where
  adm : AdmissionEnv
  redisReachable : Bool
  counter : Nat
  limit : Nat
  stageClock : Nat → Nat
  nowMs : Nat
  jobId : String
  ttlSeconds : Nat

deriving instance DecidableEq for Except

/-- Observable effects of one `run_tool` request: the counter value after
the rate-limit section, the outcome of its `try` block, the staged input
keys, the job record written to Redis, the payload enqueued to RQ, and
the HTTP response. -/
structure RunResult where
  counterAfter : Nat
  rateLimitOutcome : Except String Nat
  staged : List String
  jobCreated : Option (String × JobMeta)
  enqueued : Option Payload
  response : Except Rejection String
deriving DecidableEq

/-- `run_tool` (tools.py lines 20-74).  Lines 30-39: the whole rate-limit
`try` block — including the `HTTPException` raised on line 36 when the
counter exceeds the limit — is wrapped by `except Exception`, which logs
and continues; so the section's only surviving effect is the counter
increment, and no request is ever rejected here.  Then: tool lookup
(line 41), `validate_tool_and_files` (line 45), staging of each validated
buffer under `"temp"` (lines 48-51), job-record creation (lines 53-67)
and enqueue (lines 70-71), answering 202 with the job id. -/
def runTool (env : RouteEnv) (slug : String) (files : List FileUpload) :
    RunResult :=
  let counterAfter := if env.redisReachable then env.counter + 1
                      else env.counter
  let rl := rateLimitTry env.redisReachable env.counter env.limit
  let rejected : Rejection → RunResult := fun e =>
    { counterAfter := counterAfter, rateLimitOutcome := rl, staged := [],
      jobCreated := none, enqueued := none, response := .error e }
  if (toolsLookup slug).isNone then rejected .toolNotFound
  else
    match validateToolAndFiles env.adm slug files with
    | .error e => rejected e
    | .ok validated =>
      let keys := validated.enum.map
        (fun iv => upload_bytes iv.2.2.1 iv.2.2.2 "temp" (env.stageClock iv.1))
      let meta := mkJobMeta env.jobId slug env.nowMs keys env.ttlSeconds
      { counterAfter := counterAfter
        rateLimitOutcome := rl
        staged := keys
        jobCreated := some (env.jobId, meta)
        enqueued := some { jobId := some env.jobId, inputKeys := keys,
                           tool := some slug }
        response := .ok env.jobId }

@[simp] theorem mergeField_none {α : Type} (x : Option α) :
    mergeField none x = x := by
  cases x <;> rfl

theorem saveMetadataSync_self (reg : Registry) (jid : String) (p : JobMeta)
    (now : Nat) :
    (saveMetadataSync reg jid p now) ("job:" ++ jid)
      = some { ((reg ("job:" ++ jid)).getD {}).merge p
               with updatedAt := some now } := by
  simp [saveMetadataSync]

/-- Unfolding of `processJob` on a payload that passes the guard. -/
theorem processJob_valid_run (reg : Registry) (env : WorkerEnv)
    (jid : String) (hj : jid ≠ "") (keys : List String) (hk : keys ≠ [])
    (tl : Option String) :
    processJob reg env ⟨some jid, keys, tl⟩ =
      (match processPassThrough env.conv keys with
       | .ok (outKey, _, _) =>
         (saveMetadataSync (processJobStep1 reg jid env.nowRunning) jid
           { status := some .completed, outputFile := some outKey }
           env.nowDone,
          .completedOut outKey)
       | .error e =>
         (saveMetadataSync (processJobStep1 reg jid env.nowRunning) jid
           { status := some .failed, error := some e } env.nowDone,
          .raised e)) := by
  have h1 : falsyStr (some jid) = false := by
    simp [falsyStr]
    exact hj
  have h2 : keys.isEmpty = false := by
    cases keys with
    | nil => exact absurd rfl hk
    | cons a l => rfl
  unfold processJob
  simp [h1, h2]

/-- A worker environment whose collaborators all fail; used to
instantiate hypothesis-bearing theorems. -/
def trivialConvEnv : ConvEnv where
  store := fun _ => none
  parsePdf := fun _ => none
  writePdf := fun _ => []
  decodeImage := fun _ => none
  encodeJpeg := fun _ => []
  nowMs := 0

def trivialWorkerEnv : WorkerEnv where
  conv := trivialConvEnv
  nowRunning := 0
  nowDone := 0

/-- Conversion environment of the redelivery scenario, first delivery:
the single staged input `"in1"` is present, so the pass-through copy
succeeds. -/
def cxConvOk : ConvEnv where
  store := fun k => if k = "in1" then some [37] else none
  parsePdf := fun _ => none
  writePdf := fun _ => []
  decodeImage := fun _ => none
  encodeJpeg := fun _ => []
  nowMs := 1000

/-- Second delivery: the staged input has meanwhile been deleted, so the
download raises and the run fails. -/
def cxConvFail : ConvEnv :=
  { cxConvOk with store := fun _ => none, nowMs := 2000 }

def cxEnv1 : WorkerEnv := { conv := cxConvOk, nowRunning := 1001, nowDone := 1002 }

def cxEnv2 : WorkerEnv := { conv := cxConvFail, nowRunning := 2001, nowDone := 2002 }

/-- The redelivered work item. -/
def cxPayload : Payload :=
  { jobId := some "j1", inputKeys := ["in1"], tool := some "merge-pdf" }

/-- Registry after admission created job `j1`. -/
def cxReg0 : Registry :=
  storeJobMetadata (fun _ => none) "j1" (mkJobMeta "j1" "merge-pdf" 900 ["in1"] 3600)

/-- Registry after the first (successful) delivery of the work item. -/
def cxRegAfter1 : Registry := (processJob cxReg0 cxEnv1 cxPayload).1

/-- Registry after the second (failing) delivery of the same work item. -/
def cxRegAfter2 : Registry := (processJob cxRegAfter1 cxEnv2 cxPayload).1

/-- C1 counterexample: delivering the same work item twice, where the
first run completed and the second failed, leaves the record for `j1`
with `status = "failed"` and an `error` while still carrying the first
run's `outputFile` key — exactly the mixed state the claim rules out
(`_save_metadata_sync` merges and never removes fields). -/
theorem c1_counterexample_redelivery_mixed_state :
    (cxRegAfter2 "job:j1").map
        (fun m => (m.status, m.outputFile.isSome, m.error)) =
      some (some .failed, true, some "NoSuchKey: in1") := by
  decide

/-- C1 amended: after the second delivery the record's `status` matches
the second run's outcome, and the second run's `outputFile` (on success)
or `error` (on failure) is correctly recorded; stale fields written by
the first run may nevertheless persist alongside. -/
theorem c1_amended_second_run_sets_status (reg0 : Registry)
    (env1 env2 : WorkerEnv) (jid : String) (hj : jid ≠ "")
    (keys : List String) (hk : keys ≠ []) (tl : Option String) :
    ∃ m, (processJob (processJob reg0 env1 ⟨some jid, keys, tl⟩).1 env2
            ⟨some jid, keys, tl⟩).1 ("job:" ++ jid) = some m ∧
      (∀ k b ct, processPassThrough env2.conv keys = .ok (k, b, ct) →
        m.status = some .completed ∧ m.outputFile = some k ∧
        m.updatedAt = some env2.nowDone) ∧
      (∀ e, processPassThrough env2.conv keys = .error e →
        m.status = some .failed ∧ m.error = some e ∧
        m.updatedAt = some env2.nowDone) := by
  rw [processJob_valid_run _ env2 jid hj keys hk tl]
  cases hpc : processPassThrough env2.conv keys with
  | ok v =>
    obtain ⟨k, b, ct⟩ := v
    refine ⟨_, saveMetadataSync_self _ _ _ _, ?_, ?_⟩
    · intro k' b' ct' h'
      simp only [Except.ok.injEq, Prod.mk.injEq] at h'
      obtain ⟨hk', -, -⟩ := h'
      subst hk'
      simp [JobMeta.merge, mergeField]
    · intro e h'
      exact absurd h' (by simp)
  | error e =>
    refine ⟨_, saveMetadataSync_self _ _ _ _, ?_, ?_⟩
    · intro k' b' ct' h'
      exact absurd h' (by simp)
    · intro e' h'
      simp only [Except.error.injEq] at h'
      subst h'
      simp [JobMeta.merge, mergeField]

theorem c1_amended_second_run_sets_status_witness :
    ∃ m, (processJob (processJob (fun _ => none) trivialWorkerEnv
            ⟨some "wj", ["a"], none⟩).1 trivialWorkerEnv
            ⟨some "wj", ["a"], none⟩).1 ("job:" ++ "wj") = some m ∧
      (∀ k b ct, processPassThrough trivialWorkerEnv.conv ["a"] = .ok (k, b, ct) →
        m.status = some .completed ∧ m.outputFile = some k ∧
        m.updatedAt = some trivialWorkerEnv.nowDone) ∧
      (∀ e, processPassThrough trivialWorkerEnv.conv ["a"] = .error e →
        m.status = some .failed ∧ m.error = some e ∧
        m.updatedAt = some trivialWorkerEnv.nowDone) :=
  c1_amended_second_run_sets_status (fun _ => none) trivialWorkerEnv
    trivialWorkerEnv "wj" (by decide) ["a"] (by decide) none

/-- Position of a status value along the state machine
`queued -> running -> {completed, failed}`. -/
def statusRank : Option JobStatus → Nat
  | some .queued => 0
  | some .running => 1
  | some .completed => 2
  | some .failed => 2
  | none => 0

/-- C2 counterexample: after the first delivery completed job `j1`, the
opening registry write of the redelivered work item (processor.py
line 163) moves the record's status from `completed` back to `running` —
`_save_metadata_sync` merges blindly, with no monotonicity guard. -/
theorem c2_counterexample_redelivery_regresses_status :
    (cxRegAfter1 "job:j1").map (fun m => m.status)
        = some (some .completed) ∧
    ((processJobStep1 cxRegAfter1 "j1" 2001) "job:j1").map (fun m => m.status)
        = some (some .running) := by
  constructor <;> decide

/-- C2 amended: within a single delivery the status only moves forward —
starting from a `queued` record, the worker writes `running` and then a
terminal `completed`/`failed`, each write strictly increasing the status
rank.  Across redeliveries monotonicity fails: a redelivered work item
writes `running` over a terminal status at the start of re-processing. -/
theorem c2_amended_monotone_within_delivery (reg : Registry)
    (env : WorkerEnv) (jid : String) (hj : jid ≠ "") (keys : List String)
    (hk : keys ≠ []) (tl : Option String) (m0 : JobMeta)
    (_h0 : reg ("job:" ++ jid) = some m0) (hq : m0.status = some .queued) :
    ∃ m1 m2,
      (processJobStep1 reg jid env.nowRunning) ("job:" ++ jid) = some m1 ∧
      m1.status = some .running ∧
      (processJob reg env ⟨some jid, keys, tl⟩).1 ("job:" ++ jid) = some m2 ∧
      (m2.status = some .completed ∨ m2.status = some .failed) ∧
      statusRank m0.status < statusRank m1.status ∧
      statusRank m1.status < statusRank m2.status := by
  have hm1 : (processJobStep1 reg jid env.nowRunning) ("job:" ++ jid)
      = some { (((reg ("job:" ++ jid)).getD {}).merge
                 { status := some .running })
               with updatedAt := some env.nowRunning } :=
    saveMetadataSync_self _ _ _ _
  have hm1s : ({ (((reg ("job:" ++ jid)).getD {}).merge
                 { status := some .running })
               with updatedAt := some env.nowRunning } : JobMeta).status
      = some .running := by
    simp [JobMeta.merge, mergeField]
  rw [processJob_valid_run _ env jid hj keys hk tl]
  cases hpc : processPassThrough env.conv keys with
  | ok v =>
    obtain ⟨k, b, ct⟩ := v
    refine ⟨_, _, hm1, hm1s, saveMetadataSync_self _ _ _ _, ?_, ?_, ?_⟩
    · left
      simp [JobMeta.merge, mergeField]
    · rw [hq, hm1s]
      decide
    · rw [hm1s]
      simp [JobMeta.merge, mergeField, statusRank]
  | error e =>
    refine ⟨_, _, hm1, hm1s, saveMetadataSync_self _ _ _ _, ?_, ?_, ?_⟩
    · right
      simp [JobMeta.merge, mergeField]
    · rw [hq, hm1s]
      decide
    · rw [hm1s]
      simp [JobMeta.merge, mergeField, statusRank]

theorem c2_amended_monotone_within_delivery_witness :
    ∃ m1 m2,
      (processJobStep1 cxReg0 "j1" trivialWorkerEnv.nowRunning)
          ("job:" ++ "j1") = some m1 ∧
      m1.status = some .running ∧
      (processJob cxReg0 trivialWorkerEnv ⟨some "j1", ["in1"], none⟩).1
          ("job:" ++ "j1") = some m2 ∧
      (m2.status = some .completed ∨ m2.status = some .failed) ∧
      statusRank (mkJobMeta "j1" "merge-pdf" 900 ["in1"] 3600).status
          < statusRank m1.status ∧
      statusRank m1.status < statusRank m2.status :=
  c2_amended_monotone_within_delivery cxReg0 trivialWorkerEnv "j1"
    (by decide) ["in1"] (by decide) none
    (mkJobMeta "j1" "merge-pdf" 900 ["in1"] 3600) (by decide) (by decide)

/-- The record invariant of the claim: `outputFile` present iff
`completed`, `error` present iff `failed`. -/
def metaInv (m : JobMeta) : Prop :=
  (m.outputFile.isSome ↔ m.status = some .completed) ∧
  (m.error.isSome ↔ m.status = some .failed)

/-- C3 counterexample: the record reachable by create, a first delivery
that completed, and a second delivery that failed carries an `outputFile`
key while its status is `failed`, refuting `outputKey present iff
status = completed` for reachable records. -/
theorem c3_counterexample_output_key_without_completed :
    (cxRegAfter2 "job:j1").map (fun m => (m.outputFile.isSome, m.status))
        = some (true, some .failed) := by
  decide

/-- C3 amended: the invariant holds for every record reachable by
creation followed by at most one complete delivery — after the create,
after the `running` write, and after the terminal write of a single run.
It can fail from the second delivery of the same work item on. -/
theorem c3_amended_inv_single_delivery (reg0 : Registry) (env : WorkerEnv)
    (jid slug : String) (hj : jid ≠ "") (keys : List String)
    (hk : keys ≠ []) (tl : Option String) (t0 ttl : Nat) :
    ∃ mC m1 m2,
      (storeJobMetadata reg0 jid (mkJobMeta jid slug t0 keys ttl))
          ("job:" ++ jid) = some mC ∧ metaInv mC ∧
      (processJobStep1
          (storeJobMetadata reg0 jid (mkJobMeta jid slug t0 keys ttl))
          jid env.nowRunning) ("job:" ++ jid) = some m1 ∧ metaInv m1 ∧
      (processJob (storeJobMetadata reg0 jid (mkJobMeta jid slug t0 keys ttl))
          env ⟨some jid, keys, tl⟩).1 ("job:" ++ jid) = some m2 ∧
        metaInv m2 := by
  have hC : (storeJobMetadata reg0 jid (mkJobMeta jid slug t0 keys ttl))
      ("job:" ++ jid) = some (mkJobMeta jid slug t0 keys ttl) := by
    simp [storeJobMetadata]
  have hCinv : metaInv (mkJobMeta jid slug t0 keys ttl) := by
    simp [metaInv, mkJobMeta]
  have hm1 : (processJobStep1
      (storeJobMetadata reg0 jid (mkJobMeta jid slug t0 keys ttl))
      jid env.nowRunning) ("job:" ++ jid)
      = some { ((mkJobMeta jid slug t0 keys ttl).merge
                 { status := some .running })
               with updatedAt := some env.nowRunning } := by
    rw [processJobStep1, saveMetadataSync_self, hC]
    rfl
  have hm1inv : metaInv { ((mkJobMeta jid slug t0 keys ttl).merge
      { status := some .running }) with updatedAt := some env.nowRunning } := by
    simp [metaInv, mkJobMeta, JobMeta.merge, mergeField]
  rw [processJob_valid_run _ env jid hj keys hk tl]
  cases hpc : processPassThrough env.conv keys with
  | ok v =>
    obtain ⟨k, b, ct⟩ := v
    have hm2 := saveMetadataSync_self
      (processJobStep1
        (storeJobMetadata reg0 jid (mkJobMeta jid slug t0 keys ttl))
        jid env.nowRunning)
      jid { status := some .completed, outputFile := some k } env.nowDone
    rw [hm1, Option.getD_some] at hm2
    exact ⟨_, _, _, hC, hCinv, hm1, hm1inv, hm2,
      by simp [metaInv, mkJobMeta, JobMeta.merge, mergeField]⟩
  | error e =>
    have hm2 := saveMetadataSync_self
      (processJobStep1
        (storeJobMetadata reg0 jid (mkJobMeta jid slug t0 keys ttl))
        jid env.nowRunning)
      jid { status := some .failed, error := some e } env.nowDone
    rw [hm1, Option.getD_some] at hm2
    exact ⟨_, _, _, hC, hCinv, hm1, hm1inv, hm2,
      by simp [metaInv, mkJobMeta, JobMeta.merge, mergeField]⟩

theorem c3_amended_inv_single_delivery_witness :
    ∃ mC m1 m2,
      (storeJobMetadata (fun _ => none) "wj"
          (mkJobMeta "wj" "merge-pdf" 5 ["a"] 3600)) ("job:" ++ "wj")
        = some mC ∧ metaInv mC ∧
      (processJobStep1
          (storeJobMetadata (fun _ => none) "wj"
            (mkJobMeta "wj" "merge-pdf" 5 ["a"] 3600))
          "wj" trivialWorkerEnv.nowRunning) ("job:" ++ "wj")
        = some m1 ∧ metaInv m1 ∧
      (processJob
          (storeJobMetadata (fun _ => none) "wj"
            (mkJobMeta "wj" "merge-pdf" 5 ["a"] 3600))
          trivialWorkerEnv ⟨some "wj", ["a"], none⟩).1 ("job:" ++ "wj")
        = some m2 ∧ metaInv m2 :=
  c3_amended_inv_single_delivery (fun _ => none) trivialWorkerEnv "wj"
    "merge-pdf" (by decide) ["a"] (by decide) none 5 3600

/-- C6 counterexample: updating a job whose record is gone is not a
no-op — `_save_metadata_sync` falls back to the empty dict and writes a
fresh record holding the patch fields. -/
theorem c6_counterexample_update_missing_not_noop :
    ((fun _ => none : Registry) "job:gone" = none) ∧
    (saveMetadataSync (fun _ => none) "gone"
        { status := some .failed, error := some "boom" } 7) "job:gone"
      = some { status := some .failed, error := some "boom",
               updatedAt := some 7 } := by
  constructor
  · rfl
  · decide

/-- C6 amended: an update of a job id whose record no longer exists does
not raise (the model is total, as is the source path: the only guarded
operation is the JSON parse), but instead of being a no-op it creates a
fresh record holding exactly the supplied fields plus `updatedAt`;
records under other keys are untouched. -/
theorem c6_amended_update_missing_creates (reg : Registry) (jid : String)
    (p : JobMeta) (now : Nat) (h : reg ("job:" ++ jid) = none) :
    (saveMetadataSync reg jid p now) ("job:" ++ jid)
        = some { p with updatedAt := some now } ∧
    ∀ k, k ≠ "job:" ++ jid → (saveMetadataSync reg jid p now) k = reg k := by
  constructor
  · rw [saveMetadataSync_self, h]
    cases p
    simp [JobMeta.merge]
  · intro k hk
    simp [saveMetadataSync, hk]

theorem c6_amended_update_missing_creates_witness :
    (saveMetadataSync (fun _ => none) "w6" { status := some .running } 3)
        ("job:" ++ "w6") = some { status := some .running,
                                  updatedAt := some 3 } ∧
    ∀ k, k ≠ "job:" ++ "w6" →
      (saveMetadataSync (fun _ => none) "w6" { status := some .running } 3) k
        = (fun _ => none : Registry) k :=
  c6_amended_update_missing_creates (fun _ => none) "w6"
    { status := some JobStatus.running } 3 rfl

/-- C10 (confirmed): a work item whose payload misses the job id or has
an empty input-key list makes `process_job` return silently — no
exception, no registry write, the registry exactly as before. -/
theorem c10_invalid_payload_silent (reg : Registry) (env : WorkerEnv)
    (data : Payload) (h : data.jobId = none ∨ data.inputKeys = []) :
    processJob reg env data = (reg, .silent) := by
  unfold processJob
  rcases h with h | h
  · simp [h, falsyStr]
  · simp [h]

theorem c10_invalid_payload_silent_witness :
    processJob (fun _ => none) trivialWorkerEnv
        { jobId := none, inputKeys := ["k"], tool := none }
      = ((fun _ => none : Registry), .silent) :=
  c10_invalid_payload_silent (fun _ => none) trivialWorkerEnv
    { jobId := none, inputKeys := ["k"], tool := none } (Or.inl rfl)

theorem digitChar_ne_dash (n : Nat) : digitChar n ≠ '-' := by
  unfold digitChar
  split <;> decide

theorem digitChar_sub (k : Nat) (h : k < 10) :
    (digitChar k).toNat - 48 = k := by
  interval_cases k <;> decide

theorem mem_natDigits_ne_dash (n : Nat) :
    ∀ c ∈ natDigits n, c ≠ '-' := by
  induction n using Nat.strong_induction_on with
  | _ n ih =>
    rw [natDigits]
    split
    · intro c hc
      simp only [List.mem_singleton] at hc
      subst hc
      exact digitChar_ne_dash n
    · intro c hc
      rcases List.mem_append.mp hc with h | h
      · exact ih (n / 10) (Nat.div_lt_self (by omega) (by omega)) c h
      · simp only [List.mem_singleton] at h
        subst h
        exact digitChar_ne_dash (n % 10)

/-- Reading a digit string back as a number. -/
def valOfDigits (l : List Char) : Nat :=
  l.foldl (fun acc c => acc * 10 + (c.toNat - 48)) 0

theorem valOfDigits_natDigits (n : Nat) :
    valOfDigits (natDigits n) = n := by
  induction n using Nat.strong_induction_on with
  | _ n ih =>
    rw [natDigits]
    split
    · rename_i h
      simp only [valOfDigits, List.foldl_cons, List.foldl_nil, Nat.zero_mul,
        Nat.zero_add]
      exact digitChar_sub n h
    · rename_i h
      rw [valOfDigits, List.foldl_append]
      have hih := ih (n / 10) (Nat.div_lt_self (by omega) (by omega))
      rw [valOfDigits] at hih
      rw [hih]
      simp only [List.foldl_cons, List.foldl_nil]
      rw [digitChar_sub (n % 10) (Nat.mod_lt _ (by omega))]
      omega

theorem natDigits_inj {a b : Nat} (h : natDigits a = natDigits b) :
    a = b := by
  have hv := congrArg valOfDigits h
  rwa [valOfDigits_natDigits, valOfDigits_natDigits] at hv

theorem takeWhile_append_stop (p : Char → Bool) (l1 : List Char) (x : Char)
    (l2 : List Char) (h1 : ∀ c ∈ l1, p c = true) (hx : p x = false) :
    (l1 ++ x :: l2).takeWhile p = l1 := by
  induction l1 with
  | nil => simp [List.takeWhile_cons, hx]
  | cons a t ih =>
    have ha : p a = true := h1 a (by simp)
    simp [List.takeWhile_cons, ha, ih (fun c hc => h1 c (by simp [hc]))]

theorem mkObjectKey_data (pfx : String) (t : Nat) :
    (mkObjectKey pfx t).data
      = pfx.data ++ '/' :: (natDigits (t / 1000) ++ '-' :: natDigits t) := by
  simp [mkObjectKey, natToStr, String.data_append]

/-- C8 counterexample: two distinct stage invocations — different buffers
and content types, so certainly different stages — performed at the same
clock reading with the same prefix yield the SAME object key: keys are
built from the timestamp alone, with no counter or random suffix
(storage.py line 53, processor.py line 86). -/
theorem c8_counterexample_same_ms_collision :
    upload_bytes [1] "application/pdf" "output" 1712345678901
      = upload_bytes [2] "image/jpeg" "output" 1712345678901 ∧
    ([1] : Bytes) ≠ [2] :=
  ⟨rfl, by decide⟩

/-- C8 amended: keys contain only the second and millisecond timestamp,
so two stage invocations with the same prefix collide exactly when they
fall in the same millisecond; at distinct millisecond readings the keys
never collide. -/
theorem c8_amended_distinct_ms_distinct_keys (pfx : String) (t1 t2 : Nat)
    (h : t1 ≠ t2) : mkObjectKey pfx t1 ≠ mkObjectKey pfx t2 := by
  intro heq
  apply h
  apply natDigits_inj
  have hd : pfx.data ++ '/' :: (natDigits (t1 / 1000) ++ '-' :: natDigits t1)
      = pfx.data ++ '/' :: (natDigits (t2 / 1000) ++ '-' :: natDigits t2) := by
    rw [← mkObjectKey_data, ← mkObjectKey_data, heq]
  have hform : ∀ t : Nat,
      (pfx.data ++ '/' :: (natDigits (t / 1000) ++ '-' :: natDigits t)).reverse
        = (natDigits t).reverse
            ++ '-' :: ((natDigits (t / 1000)).reverse
            ++ '/' :: pfx.data.reverse) := by
    intro t
    simp [List.reverse_append]
  have hrev := congrArg List.reverse hd
  rw [hform t1, hform t2] at hrev
  have hmem : ∀ t : Nat, ∀ c ∈ (natDigits t).reverse, (c != '-') = true := by
    intro t c hc
    rw [List.mem_reverse] at hc
    exact bne_iff_ne.mpr (mem_natDigits_ne_dash t c hc)
  have htw := congrArg (List.takeWhile (fun c => c != '-')) hrev
  rw [takeWhile_append_stop _ _ _ _ (hmem t1) (by decide),
      takeWhile_append_stop _ _ _ _ (hmem t2) (by decide)] at htw
  exact List.reverse_injective htw

theorem c8_amended_distinct_ms_distinct_keys_witness :
    mkObjectKey "output" 1000 ≠ mkObjectKey "output" 2000 :=
  c8_amended_distinct_ms_distinct_keys "output" 1000 2000 (by decide)

theorem parsePdfAll_ok_get (env : ConvEnv) (bs : List Bytes)
    (pagess : List (List PdfPage)) (h : parsePdfAll env bs = .ok pagess) :
    pagess.length = bs.length ∧
    ∀ i, i < bs.length →
      env.parsePdf (bs.getD i []) = some (pagess.getD i []) := by
  induction bs generalizing pagess with
  | nil =>
    unfold parsePdfAll at h
    simp only [Except.ok.injEq] at h
    subst h
    exact ⟨rfl, by intro i hi; exact absurd hi (by simp)⟩
  | cons b rest ih =>
    unfold parsePdfAll at h
    cases hp : env.parsePdf b with
    | none =>
      rw [hp] at h
      exact absurd h (by simp)
    | some ps =>
      rw [hp] at h
      cases hr : parsePdfAll env rest with
      | error e =>
        rw [hr] at h
        exact absurd h (by simp)
      | ok rest2 =>
        rw [hr] at h
        simp only [Except.ok.injEq] at h
        subst h
        obtain ⟨hlen, hget⟩ := ih rest2 hr
        refine ⟨by simp [hlen], ?_⟩
        intro i hi
        cases i with
        | zero => simpa using hp
        | succ j =>
          simp only [List.getD_cons_succ]
          exact hget j (by simpa using hi)

theorem stackPx_band (imgs : List Img) :
    ∀ i, i < imgs.length → ∀ x y, y < (imgs.getD i defaultImg).h →
      stackPx imgs x (heightsBefore imgs i + y)
        = if x < (imgs.getD i defaultImg).w then
            (imgs.getD i defaultImg).px x y
          else canvasRGBA := by
  induction imgs with
  | nil =>
    intro i hi
    exact absurd hi (by simp)
  | cons im rest ih =>
    intro i hi x y hy
    cases i with
    | zero =>
      simp only [List.getD_cons_zero] at hy ⊢
      have hb0 : heightsBefore (im :: rest) 0 = 0 := by
        simp [heightsBefore]
      rw [hb0, Nat.zero_add]
      simp [stackPx, hy]
    | succ j =>
      have hb : heightsBefore (im :: rest) (j + 1)
          = im.h + heightsBefore rest j := by
        simp [heightsBefore, List.take_succ_cons]
      rw [hb]
      have harith : im.h + heightsBefore rest j + y
          = im.h + (heightsBefore rest j + y) := by omega
      rw [harith]
      simp only [List.getD_cons_succ] at hy ⊢
      have hnot : ¬ (im.h + (heightsBefore rest j + y) < im.h) := by omega
      have hsub : im.h + (heightsBefore rest j + y) - im.h
          = heightsBefore rest j + y := by omega
      simp only [stackPx, if_neg hnot, hsub]
      exact ih j (by simpa using hi) x y hy

/-- C9 (confirmed): the reference fallback converter.  Given the
downloaded buffers (fetched in input-key order): a single input is
staged back unchanged; multiple PDF inputs (first buffer carrying the
PDF magic, all parsable) yield one PDF holding the concatenation of the
inputs' page lists in input order; multiple image inputs yield one
JPEG-encoded RGB (hence opaque) image of width `max(widths)` and height
`sum(heights)` in which the band of rows belonging to input `i` shows
input `i`'s pixels (columns beyond that input's width keep the canvas
colour, which the RGB conversion flattens to opaque white). -/
theorem c9_fallback_converter (env : ConvEnv) (ks : List String)
    (buffers : List Bytes) (hdl : downloadInputs env ks = .ok buffers) :
    (∀ b, buffers = [b] →
      ∃ ct, processPassThrough env ks
        = .ok (mkObjectKey "output" env.nowMs, b, ct)) ∧
    (∀ b0 b1 rest pagess, buffers = b0 :: b1 :: rest →
      isPdfHead b0 = true → parsePdfAll env buffers = .ok pagess →
      processPassThrough env ks
          = .ok (mkObjectKey "output" env.nowMs,
                 env.writePdf pagess.flatten, "application/pdf") ∧
      pagess.length = buffers.length ∧
      ∀ i, i < buffers.length →
        env.parsePdf (buffers.getD i []) = some (pagess.getD i [])) ∧
    (∀ b0 b1 rest imgs, buffers = b0 :: b1 :: rest →
      isPdfHead b0 = false → decodeAll env buffers = .ok imgs →
      processPassThrough env ks
          = .ok (mkObjectKey "output" env.nowMs,
                 env.encodeJpeg (mergeVertical imgs), "image/jpeg") ∧
      (mergeVertical imgs).h = (imgs.map Img.h).sum ∧
      (mergeVertical imgs).w = (imgs.map Img.w).foldr max 0 ∧
      ∀ i x y, i < imgs.length → y < (imgs.getD i defaultImg).h →
        ((x < (imgs.getD i defaultImg).w →
          (mergeVertical imgs).px x (heightsBefore imgs i + y)
            = dropAlpha ((imgs.getD i defaultImg).px x y)) ∧
         ((imgs.getD i defaultImg).w ≤ x →
          (mergeVertical imgs).px x (heightsBefore imgs i + y)
            = (255, 255, 255)))) := by
  refine ⟨?_, ?_, ?_⟩
  · intro b hb
    subst hb
    unfold processPassThrough
    rw [hdl]
    exact ⟨_, rfl⟩
  · intro b0 b1 rest pagess hb hpdf hparse
    subst hb
    refine ⟨?_, parsePdfAll_ok_get env _ pagess hparse⟩
    unfold processPassThrough
    rw [hdl]
    simp [hpdf, hparse]
  · intro b0 b1 rest imgs hb himg hdec
    subst hb
    refine ⟨?_, rfl, rfl, ?_⟩
    · unfold processPassThrough
      rw [hdl]
      simp [himg, hdec]
    · intro i x y hi hy
      constructor
      · intro hx
        show dropAlpha (stackPx imgs x (heightsBefore imgs i + y)) = _
        rw [stackPx_band imgs i hi x y hy, if_pos hx]
      · intro hx
        show dropAlpha (stackPx imgs x (heightsBefore imgs i + y)) = _
        rw [stackPx_band imgs i hi x y hy, if_neg (by omega)]
        rfl

/-- A concrete conversion environment holding two stored image buffers;
used to instantiate `c9_fallback_converter`. -/
def c9Env : ConvEnv where
  store := fun k => if k = "a" then some [1] else if k = "b" then some [2] else none
  parsePdf := fun _ => some [0]
  writePdf := fun ps => ps
  decodeImage := fun _ => some defaultImg
  encodeJpeg := fun _ => []
  nowMs := 5000

theorem c9_fallback_converter_witness :
    (∀ b, ([[1], [2]] : List Bytes) = [b] →
      ∃ ct, processPassThrough c9Env ["a", "b"]
        = .ok (mkObjectKey "output" c9Env.nowMs, b, ct)) ∧
    (∀ b0 b1 rest pagess, ([[1], [2]] : List Bytes) = b0 :: b1 :: rest →
      isPdfHead b0 = true →
      parsePdfAll c9Env [[1], [2]] = .ok pagess →
      processPassThrough c9Env ["a", "b"]
          = .ok (mkObjectKey "output" c9Env.nowMs,
                 c9Env.writePdf pagess.flatten, "application/pdf") ∧
      pagess.length = ([[1], [2]] : List Bytes).length ∧
      ∀ i, i < ([[1], [2]] : List Bytes).length →
        c9Env.parsePdf (([[1], [2]] : List Bytes).getD i [])
          = some (pagess.getD i [])) ∧
    (∀ b0 b1 rest imgs, ([[1], [2]] : List Bytes) = b0 :: b1 :: rest →
      isPdfHead b0 = false →
      decodeAll c9Env [[1], [2]] = .ok imgs →
      processPassThrough c9Env ["a", "b"]
          = .ok (mkObjectKey "output" c9Env.nowMs,
                 c9Env.encodeJpeg (mergeVertical imgs), "image/jpeg") ∧
      (mergeVertical imgs).h = (imgs.map Img.h).sum ∧
      (mergeVertical imgs).w = (imgs.map Img.w).foldr max 0 ∧
      ∀ i x y, i < imgs.length → y < (imgs.getD i defaultImg).h →
        ((x < (imgs.getD i defaultImg).w →
          (mergeVertical imgs).px x (heightsBefore imgs i + y)
            = dropAlpha ((imgs.getD i defaultImg).px x y)) ∧
         ((imgs.getD i defaultImg).w ≤ x →
          (mergeVertical imgs).px x (heightsBefore imgs i + y)
            = (255, 255, 255)))) :=
  c9_fallback_converter c9Env ["a", "b"] [[1], [2]] (by decide)


/-- When the empty/size/type checks pass, `fileCheck` is decided by the
scan step alone. -/
theorem fileCheck_scan_step (env : AdmissionEnv) (tool : ToolMeta)
    (f : FileUpload) (hne : f.content.isEmpty = false)
    (hsize : ¬ f.content.length > pyOrNat tool.maxSizeBytes env.maxUploadBytes)
    (hmime : tool.allowedMimeTypes.contains
      (env.detectMime f.content f.filename) = true) :
    fileCheck env tool f =
      (if !(scanBuffer env.clamavEnabled (env.scanOracle f.content)).1 then
        .error (.malwareDetected f.filename
          (scanBuffer env.clamavEnabled (env.scanOracle f.content)).2)
       else .ok (f.filename, f.content,
                 env.detectMime f.content f.filename)) := by
  unfold fileCheck
  rw [if_neg (by rw [hne]; decide), if_neg hsize,
      if_neg (by rw [hmime]; decide)]

/-- C5 (confirmed): malware screening is fail-closed.  (1) With scanning
enabled, a scan-backend exception on a file that passed the earlier
checks rejects the file with a 400 `HTTPException` (reason
`"ClamAV error: ..."`) — it is never admitted unscanned.  (2) An
infected verdict rejects with the signature name.  (3) With scanning
administratively disabled, `scan_buffer` never consults the oracle and
reports every buffer clean. -/
theorem c5_scan_fail_closed (env : AdmissionEnv) (tool : ToolMeta)
    (f : FileUpload) (henabled : env.clamavEnabled = true)
    (hne : f.content.isEmpty = false)
    (hsize : ¬ f.content.length > pyOrNat tool.maxSizeBytes env.maxUploadBytes)
    (hmime : tool.allowedMimeTypes.contains
      (env.detectMime f.content f.filename) = true) :
    (∀ e, env.scanOracle f.content = .raisedExc e →
      fileCheck env tool f
          = .error (.malwareDetected f.filename ("ClamAV error: " ++ e)) ∧
      (Rejection.malwareDetected f.filename
        ("ClamAV error: " ++ e)).statusCode = 400) ∧
    (∀ st v, env.scanOracle f.content = .streamVal st (some v) →
      st ≠ "OK" → v ≠ "" →
      fileCheck env tool f = .error (.malwareDetected f.filename v)) ∧
    (∀ r : ScanRes, scanBuffer false r = (true, "")) := by
  refine ⟨?_, ?_, ?_⟩
  · intro e hscan
    refine ⟨?_, rfl⟩
    rw [fileCheck_scan_step env tool f hne hsize hmime, henabled, hscan]
    rfl
  · intro st v hscan hst hv
    have hst2 : (st == "OK") = false := by simp [hst]
    have hv2 : (v == "") = false := by simp [hv]
    rw [fileCheck_scan_step env tool f hne hsize hmime, henabled, hscan]
    simp [scanBuffer, syncScan, pyOrStr, hst2, hv2]
  · intro r
    rfl

/-- A concrete admission environment used to instantiate the scan
theorem: the backend raises on every buffer. -/
def c5Env : AdmissionEnv where
  detectMime := fun _ _ => "application/pdf"
  scanOracle := fun _ => .raisedExc "econn"
  clamavEnabled := true
  maxUploadBytes := 100

def c5Tool : ToolMeta where
  slug := "t"
  name := "t"
  category := "pdf"
  heavy := false
  maxInputFiles := 1
  maxSizeBytes := none
  allowedMimeTypes := ["application/pdf"]

theorem c5_scan_fail_closed_witness :
    (∀ e, c5Env.scanOracle [1] = .raisedExc e →
      fileCheck c5Env c5Tool ⟨"f.pdf", [1]⟩
          = .error (.malwareDetected "f.pdf" ("ClamAV error: " ++ e)) ∧
      (Rejection.malwareDetected "f.pdf"
        ("ClamAV error: " ++ e)).statusCode = 400) ∧
    (∀ st v, c5Env.scanOracle [1] = .streamVal st (some v) →
      st ≠ "OK" → v ≠ "" →
      fileCheck c5Env c5Tool ⟨"f.pdf", [1]⟩
          = .error (.malwareDetected "f.pdf" v)) ∧
    (∀ r : ScanRes, scanBuffer false r = (true, "")) :=
  c5_scan_fail_closed c5Env c5Tool ⟨"f.pdf", [1]⟩ rfl rfl (by decide) rfl

theorem fileCheck_ok_shape (env : AdmissionEnv) (tool : ToolMeta)
    (f : FileUpload) (w : String × Bytes × String)
    (h : fileCheck env tool f = .ok w) :
    w = (f.filename, f.content, env.detectMime f.content f.filename) := by
  unfold fileCheck at h
  dsimp only at h
  split at h
  · exact absurd h (by simp)
  · split at h
    · exact absurd h (by simp)
    · split at h
      · exact absurd h (by simp)
      · split at h
        · exact absurd h (by simp)
        · simp only [Except.ok.injEq] at h
          exact h.symm

theorem validateFiles_ok_maps (env : AdmissionEnv) (tool : ToolMeta) :
    ∀ (files : List FileUpload) (v : List (String × Bytes × String)),
      validateFiles env tool files = .ok v →
      v.map (fun t => t.1) = files.map FileUpload.filename ∧
      v.map (fun t => t.2.1) = files.map FileUpload.content ∧
      v.map (fun t => t.2.2)
        = files.map (fun f => env.detectMime f.content f.filename) ∧
      v.length = files.length := by
  intro files
  induction files with
  | nil =>
    intro v h
    unfold validateFiles at h
    simp only [Except.ok.injEq] at h
    subst h
    simp
  | cons f rest ih =>
    intro v h
    unfold validateFiles at h
    cases hf : fileCheck env tool f with
    | error e =>
      rw [hf] at h
      exact absurd h (by simp)
    | ok w =>
      rw [hf] at h
      cases hr : validateFiles env tool rest with
      | error e =>
        rw [hr] at h
        exact absurd h (by simp)
      | ok vs =>
        rw [hr] at h
        simp only [Except.ok.injEq] at h
        subst h
        obtain ⟨h1, h2, h3, h4⟩ := ih vs hr
        rw [fileCheck_ok_shape env tool f w hf]
        simp [h1, h2, h3, h4]

theorem runTool_notFound (env : RouteEnv) (slug : String)
    (files : List FileUpload) (h : toolsLookup slug = none) :
    runTool env slug files =
      { counterAfter := if env.redisReachable then env.counter + 1
                        else env.counter,
        rateLimitOutcome := rateLimitTry env.redisReachable env.counter
                              env.limit,
        staged := [], jobCreated := none, enqueued := none,
        response := .error .toolNotFound } := by
  simp [runTool, h]

theorem runTool_rejected (env : RouteEnv) (slug : String)
    (files : List FileUpload) (tool : ToolMeta) (e : Rejection)
    (hl : toolsLookup slug = some tool)
    (hv : validateToolAndFiles env.adm slug files = .error e) :
    runTool env slug files =
      { counterAfter := if env.redisReachable then env.counter + 1
                        else env.counter,
        rateLimitOutcome := rateLimitTry env.redisReachable env.counter
                              env.limit,
        staged := [], jobCreated := none, enqueued := none,
        response := .error e } := by
  simp [runTool, hl, hv]

theorem runTool_accepted (env : RouteEnv) (slug : String)
    (files : List FileUpload) (tool : ToolMeta)
    (v : List (String × Bytes × String))
    (hl : toolsLookup slug = some tool)
    (hv : validateToolAndFiles env.adm slug files = .ok v) :
    runTool env slug files =
      { counterAfter := if env.redisReachable then env.counter + 1
                        else env.counter,
        rateLimitOutcome := rateLimitTry env.redisReachable env.counter
                              env.limit,
        staged := v.enum.map (fun iv =>
          upload_bytes iv.2.2.1 iv.2.2.2 "temp" (env.stageClock iv.1)),
        jobCreated := some (env.jobId,
          mkJobMeta env.jobId slug env.nowMs
            (v.enum.map (fun iv =>
              upload_bytes iv.2.2.1 iv.2.2.2 "temp" (env.stageClock iv.1)))
            env.ttlSeconds),
        enqueued := some
          { jobId := some env.jobId,
            inputKeys := v.enum.map (fun iv =>
              upload_bytes iv.2.2.1 iv.2.2.2 "temp" (env.stageClock iv.1)),
            tool := some slug },
        response := .ok env.jobId } := by
  simp [runTool, hl, hv]

theorem validateFiles_first_error (env : AdmissionEnv) (tool : ToolMeta)
    (f : FileUpload) (post : List FileUpload) (e : Rejection)
    (he : fileCheck env tool f = .error e) :
    ∀ pre : List FileUpload,
      (∀ g ∈ pre, ∃ w, fileCheck env tool g = .ok w) →
      validateFiles env tool (pre ++ f :: post) = .error e := by
  intro pre
  induction pre with
  | nil =>
    intro _
    rw [List.nil_append]
    unfold validateFiles
    rw [he]
  | cons g t ih =>
    intro hpre
    obtain ⟨w, hw⟩ := hpre g (by simp)
    rw [List.cons_append]
    unfold validateFiles
    rw [hw, ih (fun g2 hg2 => hpre g2 (by simp [hg2]))]

/-- C7 amended: admission is all-or-nothing with one carve-out forced by
the code: a rate-limit violation does not reject (the 429 raised inside
the rate-limit try block is swallowed by its own `except Exception`
handler, so the section only increments the counter).  All other checks
run in order (tool existence, file count, then per-file checks in input
order): any rejection stages nothing, creates no job and enqueues
nothing; a known tool with `count > maxInputFiles` is rejected with
`TooManyFiles` and stages nothing; the per-file loop fails with the first
violating file's first violated check; on success the validated
`(filename, bytes, detectedContentType)` tuples and the staged keys
preserve the input order and count; and the response is independent of
the rate-limit counter. -/
theorem c7_amended_all_or_nothing (env : RouteEnv) (slug : String)
    (files : List FileUpload) :
    (∀ e, (runTool env slug files).response = .error e →
      (runTool env slug files).staged = [] ∧
      (runTool env slug files).jobCreated = none ∧
      (runTool env slug files).enqueued = none ∧
      (runTool env slug files).counterAfter
        = (if env.redisReachable then env.counter + 1 else env.counter)) ∧
    (toolsLookup slug = none →
      (runTool env slug files).response = .error .toolNotFound) ∧
    (∀ tool, toolsLookup slug = some tool → files ≠ [] →
      files.length > tool.maxInputFiles →
      (runTool env slug files).response
          = .error (.tooManyFiles tool.maxInputFiles) ∧
      (runTool env slug files).staged = []) ∧
    (∀ v, validateToolAndFiles env.adm slug files = .ok v →
      (runTool env slug files).response = .ok env.jobId ∧
      (runTool env slug files).staged.length = files.length ∧
      v.map (fun t => t.1) = files.map FileUpload.filename ∧
      v.map (fun t => t.2.1) = files.map FileUpload.content ∧
      v.map (fun t => t.2.2)
        = files.map (fun f => env.adm.detectMime f.content f.filename)) ∧
    (∀ tool (pre : List FileUpload) f post e,
      fileCheck env.adm tool f = .error e →
      (∀ g ∈ pre, ∃ w, fileCheck env.adm tool g = .ok w) →
      validateFiles env.adm tool (pre ++ f :: post) = .error e) ∧
    (∀ c, (runTool { env with counter := c } slug files).response
        = (runTool env slug files).response) := by
  refine ⟨?_, ?_, ?_, ?_, ?_, ?_⟩
  · intro e h
    cases hl : toolsLookup slug with
    | none =>
      rw [runTool_notFound env slug files hl]
      exact ⟨rfl, rfl, rfl, rfl⟩
    | some tool =>
      cases hv : validateToolAndFiles env.adm slug files with
      | error e2 =>
        rw [runTool_rejected env slug files tool e2 hl hv]
        exact ⟨rfl, rfl, rfl, rfl⟩
      | ok v =>
        rw [runTool_accepted env slug files tool v hl hv] at h
        exact absurd h (by simp)
  · intro h
    rw [runTool_notFound env slug files h]
  · intro tool hl hne hcnt
    have hv : validateToolAndFiles env.adm slug files
        = .error (.tooManyFiles tool.maxInputFiles) := by
      unfold validateToolAndFiles
      rw [hl]
      dsimp only
      rw [if_neg (by cases files with
            | nil => exact absurd rfl hne
            | cons a l => simp), if_pos hcnt]
    rw [runTool_rejected env slug files tool _ hl hv]
    exact ⟨rfl, rfl⟩
  · intro v hv
    cases hl : toolsLookup slug with
    | none =>
      unfold validateToolAndFiles at hv
      rw [hl] at hv
      exact absurd hv (by simp)
    | some tool =>
      have hvf : validateFiles env.adm tool files = .ok v := by
        unfold validateToolAndFiles at hv
        rw [hl] at hv
        dsimp only at hv
        split at hv
        · exact absurd hv (by simp)
        · split at hv
          · exact absurd hv (by simp)
          · exact hv
      obtain ⟨h1, h2, h3, h4⟩ := validateFiles_ok_maps env.adm tool files v hvf
      rw [runTool_accepted env slug files tool v hl hv]
      refine ⟨rfl, ?_, h1, h2, h3⟩
      simp [h4]
  · intro tool pre f post e he hpre
    exact validateFiles_first_error env.adm tool f post e he pre hpre
  · intro c
    cases hl : toolsLookup slug with
    | none =>
      rw [runTool_notFound { env with counter := c } slug files hl,
          runTool_notFound env slug files hl]
    | some tool =>
      cases hv : validateToolAndFiles env.adm slug files with
      | error e2 =>
        rw [runTool_rejected { env with counter := c } slug files tool e2 hl hv,
            runTool_rejected env slug files tool e2 hl hv]
      | ok v =>
        rw [runTool_accepted { env with counter := c } slug files tool v hl hv,
            runTool_accepted env slug files tool v hl hv]

/-- A request environment at the rate limit (61st request in the minute,
limit 60), Redis reachable, all admission collaborators benign. -/
def c7Env : RouteEnv where
  adm := { detectMime := fun _ _ => "application/pdf",
           scanOracle := fun _ => .noRes,
           clamavEnabled := false,
           maxUploadBytes := 100 }
  redisReachable := true
  counter := 60
  limit := 60
  stageClock := fun _ => 9000
  nowMs := 9001
  jobId := "job-c7"
  ttlSeconds := 3600

/-- C7 counterexample: a request whose only violation is the rate limit
(the 61st within the minute where the limit is 60) is not rejected with
that first violation: the 429 raised inside the rate-limit try block is
swallowed by the block's own `except Exception` (tools.py lines 36-39)
and the request is admitted end to end. -/
theorem c7_counterexample_rate_limit_violation_admitted :
    rateLimitTry true 60 60
        = .error "HTTPException 429: Rate limit exceeded" ∧
    (runTool c7Env "merge-pdf" [⟨"a.pdf", [37]⟩]).response
        = .ok "job-c7" := by
  constructor
  · rfl
  · decide

def c7SplitTool : ToolMeta where
  slug := "split-pdf"
  name := "Split PDF"
  category := "pdf"
  heavy := true
  maxInputFiles := 1
  maxSizeBytes := none
  allowedMimeTypes := ["application/pdf"]

theorem c7_amended_all_or_nothing_witness :
    (runTool c7Env "no-such-tool" []).response = .error .toolNotFound ∧
    ((runTool c7Env "split-pdf" [⟨"a.pdf", [37]⟩, ⟨"b.pdf", [37]⟩]).response
        = .error (.tooManyFiles 1) ∧
     (runTool c7Env "split-pdf" [⟨"a.pdf", [37]⟩, ⟨"b.pdf", [37]⟩]).staged
        = []) ∧
    ((runTool c7Env "merge-pdf" [⟨"a.pdf", [37]⟩]).response = .ok "job-c7" ∧
     (runTool c7Env "merge-pdf" [⟨"a.pdf", [37]⟩]).staged.length = 1) := by
  refine ⟨?_, ?_, ?_⟩
  · exact (c7_amended_all_or_nothing c7Env "no-such-tool" []).2.1 (by decide)
  · exact (c7_amended_all_or_nothing c7Env "split-pdf"
      [⟨"a.pdf", [37]⟩, ⟨"b.pdf", [37]⟩]).2.2.1 c7SplitTool (by decide)
      (by decide) (by decide)
  · have h := (c7_amended_all_or_nothing c7Env "merge-pdf"
      [⟨"a.pdf", [37]⟩]).2.2.2.1 [("a.pdf", [37], "application/pdf")]
      (by decide)
    exact ⟨h.1, h.2.1⟩

/-- A request environment one past the limit (6th request, limit 5). -/
def c4Env : RouteEnv where
  adm := { detectMime := fun _ _ => "application/pdf",
           scanOracle := fun _ => .noRes,
           clamavEnabled := false,
           maxUploadBytes := 100 }
  redisReachable := true
  counter := 5
  limit := 5
  stageClock := fun _ => 42
  nowMs := 77
  jobId := "job-c4"
  ttlSeconds := 3600

/-- C4 (code bug): with the counter backend reachable and the
post-increment value over the limit, the rate-limit try block does raise
the 429 `HTTPException` (first and second conjuncts) — but `run_tool`
swallows it in the same block's `except Exception` (tools.py lines
37-39), so the over-limit request is admitted rather than rejected
(third conjunct).  In the following minute bucket the counter key is
fresh and the check passes (fourth conjunct). -/
theorem c4_rate_limit_check_never_rejects :
    rateLimitTry true 5 5
        = .error "HTTPException 429: Rate limit exceeded" ∧
    (runTool c4Env "merge-pdf" [⟨"a.pdf", [37]⟩]).rateLimitOutcome
        = .error "HTTPException 429: Rate limit exceeded" ∧
    (runTool c4Env "merge-pdf" [⟨"a.pdf", [37]⟩]).response = .ok "job-c4" ∧
    rateLimitTry true 0 5 = .ok 1 := by
  refine ⟨rfl, ?_, ?_, rfl⟩ <;> decide
